import Mathlib

/-!
Shallow embedding of
`react-native-pytorch-core/cxx/src/torchlive/vision/TransformsHostObject.cpp`:
the `centerCrop` transform exposed by `TransformsHostObject`.

A tensor is modelled by its shape (the claims under study only concern shape
introspection and crop geometry; the native buffer is owned by the external
tensor library).  JS values passed through JSI are modelled by an inductive
type with numbers (as rationals, standing for JS doubles), tensor host
objects, and everything else.  Thrown `jsi::JSError`s become an error value in
an `Except`; an out-of-bounds native access (undefined behaviour in C++, or a
`c10::Error` raised inside libtorch) becomes the distinguished error
`CropError.native`.
-/

deriving instance DecidableEq for Except

namespace Torchlive

/-- A native tensor handle, modelled by its shape: an ordered list of
dimension sizes (`tensor.sizes()` in the C++ source). -/
structure Tensor where
  shape : List Nat
deriving Repr, DecidableEq

/-- Embeds `tensor.ndimension()`. -/
def Tensor.ndimension (t : Tensor) : Nat := t.shape.length

/-- Unsigned `size_t` subtraction as it behaves in C++: wraparound modulo `2^64`.
Used to model `length - 1` / `length - 2` in `getImageSize`. -/
def usub64 (a b : Nat) : Nat := (a + 2 ^ 64 - b) % 2 ^ 64

/-- Embeds `getImageSize` (TransformsHostObject.cpp lines 26-33):
`size[0] = sizes[length - 1]` (width), `size[1] = sizes[length - 2]`
(height), where `length` is a `size_t`.  The out-of-bounds reads that occur in
C++ when the tensor has fewer than two dimensions are undefined behaviour;
in the embedding the `Option`-returning index makes that branch `none`. -/
def getImageSize (t : Tensor) : Option (Int × Int) :=
  (t.shape.get? (usub64 t.shape.length 1)).bind fun w =>
    (t.shape.get? (usub64 t.shape.length 2)).map fun h =>
      ((w : Int), (h : Int))

/-- The crop geometry the invocation computes (lines 116-127): the resolved
crop `height`/`width` and the `cropTop`/`cropLeft` offsets. -/
structure CropGeometry where
  height : Int
  width : Int
  top : Int
  left : Int
deriving Repr, DecidableEq

/-- Lines 116-127 of `centerCropFunc`.  `size.1` is `size[0]` (the last
dimension, width) and `size.2` is `size[1]` (the second-to-last dimension,
height), exactly as returned by `getImageSize`.  C++ `/` on `int` truncates
toward zero, which is `Int.tdiv`. -/
def resolveCrop (width height : Int) (size : Int × Int) : CropGeometry :=
  let cropHeight := height
  let cropWidth := width
  let resolved :=
    if cropWidth = -1 then
      let minSize := min size.1 size.2
      (minSize, minSize)
    else if cropHeight = -1 then
      (cropWidth, cropWidth)
    else
      (cropHeight, cropWidth)
  { height := resolved.1
    width := resolved.2
    top := Int.tdiv (size.2 - resolved.1) 2
    left := Int.tdiv (size.1 - resolved.2) 2 }

/-- Embeds `tensor.narrow(dim, start, length)` — the slicing primitive of the
external native tensor library (an external collaborator per the spec):
the result keeps every dimension of `t` except `dim`, which becomes
`length`, viewing rows `[start, start + length)`.  A negative `start` is
wrapped once by the dimension size; out-of-range arguments raise a native
error, modelled as `none`. -/
def narrowStart (start : Int) (curSize : Nat) : Int :=
  if start < 0 then start + curSize else start

def Tensor.narrow (t : Tensor) (dim start length : Int) : Option Tensor :=
  if 0 ≤ dim ∧ dim.toNat < t.shape.length then
    if 0 ≤ length ∧ 0 ≤ narrowStart start (t.shape.getD dim.toNat 0) ∧
        narrowStart start (t.shape.getD dim.toNat 0) + length ≤
          ((t.shape.getD dim.toNat 0 : Nat) : Int) then
      some ⟨t.shape.set dim.toNat length.toNat⟩
    else
      none
  else
    none

/-- A JS value reaching the binding through JSI: a number (JS numbers are
doubles; modelled as rationals), a tensor host object, `undefined`, or any
other value. -/
inductive JSValue where
  | number (q : ℚ)
  | tensor (t : Tensor)
  | undefined
  | other
deriving Repr, DecidableEq

/-- An error escaping the binding: a thrown `jsi::JSError` (catchable in JS
with its message), or a native failure (out-of-bounds access / `c10::Error`
from the tensor library). -/
inductive CropError where
  | jsError (msg : String)
  | native
deriving Repr, DecidableEq

/-- Modelled from the spec: `utils::helpers::parseTensor` (declared in
`../torch/utils/helpers.h`, implementation not part of this fragment) —
"parse argument into tensor handle": the argument "must be resolvable to a
tensor handle", anything else "fails with a type/argument error surfaced to
the caller" as a catchable error. -/
def parseTensor : JSValue → Except CropError Tensor
  | JSValue.tensor t => Except.ok t
  | _ => Except.error (CropError.jsError "Object is not a Tensor")

/-- C++ conversion from `double` to `int` (`int width = arguments[0].asNumber()`):
truncation toward zero. -/
def truncToInt (q : ℚ) : Int := Int.tdiv q.num (q.den : Int)

/-- Embeds `jsi::Value::asNumber()`: returns the number, throws for anything else. -/
def JSValue.asNumber : JSValue → Except CropError ℚ
  | JSValue.number q => Except.ok q
  | _ => Except.error (CropError.jsError "Value is not a number")

/-- The (width, height) pair captured by value by the returned
`centerCropFunc` closure (`[width, height]` capture list, lines 91-100).
`-1` is the sentinel meaning "compute from image". -/
structure CropSpec where
  width : Int
  height : Int
deriving Repr, DecidableEq

/-- Embeds `centerCropFactoryFunc` (lines 87-98): `width`/`height` start at `-1`
and are overwritten by `arguments[0]` / `arguments[1]` when present, each
converted from double to `int` by truncation. -/
def centerCropFactoryFunc (arguments : List JSValue) : Except CropError CropSpec := do
  let count := arguments.length
  let width ← if 0 < count then
      (JSValue.asNumber (arguments.getD 0 JSValue.undefined)).map truncToInt
    else pure (-1)
  let height ← if 1 < count then
      (JSValue.asNumber (arguments.getD 1 JSValue.undefined)).map truncToInt
    else pure (-1)
  return ⟨width, height⟩

/-- Embeds `centerCropFunc` (lines 100-140), the callable produced by the factory,
with the captured `width`/`height` passed explicitly:
arity check, `parseTensor`, `getImageSize`, geometry resolution
(`resolveCrop`), then two `narrow` calls on dimensions `dims - 2` and
`dims - 1` with the computed offsets, unvalidated. -/
def centerCropFunc (width height : Int) (innerArguments : List JSValue) :
    Except CropError Tensor :=
  if innerArguments.length ≠ 1 then
    Except.error (CropError.jsError "Tensor required as argument")
  else
    match parseTensor (innerArguments.getD 0 JSValue.undefined) with
    | Except.error e => Except.error e
    | Except.ok tensor =>
      match getImageSize tensor with
      | none => Except.error CropError.native
      | some size =>
        let c := resolveCrop width height size
        let dims : Int := (Tensor.ndimension tensor : Int)
        match (Tensor.narrow tensor (dims - 2) c.top c.height).bind
            (fun t => Tensor.narrow t (dims - 1) c.left c.width) with
        | none => Except.error CropError.native
        | some t => Except.ok t

/-- Invoking the callable produced by the factory. -/
def CropSpec.invoke (s : CropSpec) (args : List JSValue) : Except CropError Tensor :=
  centerCropFunc s.width s.height args

theorem usub64_eq_sub (a b : Nat) (hb0 : 0 < b) (hb : b ≤ a)
    (ha : a ≤ 2 ^ 64) : usub64 a b = a - b := by
  unfold usub64
  rw [show (2 : Nat) ^ 64 = 18446744073709551616 from by norm_num] at ha ⊢
  omega

theorem get?_append_two_left {α : Type} (l : List α) (a b : α) :
    (l ++ [a, b]).get? l.length = some a := by
  induction l with
  | nil => rfl
  | cons x xs ih => simpa using ih

theorem get?_append_two_right {α : Type} (l : List α) (a b : α) :
    (l ++ [a, b]).get? (l.length + 1) = some b := by
  induction l with
  | nil => rfl
  | cons x xs ih => simpa using ih

theorem getD_append_two_left {α : Type} (l : List α) (a b d : α) :
    (l ++ [a, b]).getD l.length d = a := by
  induction l with
  | nil => rfl
  | cons x xs ih => simpa using ih

theorem getD_append_two_right {α : Type} (l : List α) (a b d : α) :
    (l ++ [a, b]).getD (l.length + 1) d = b := by
  induction l with
  | nil => rfl
  | cons x xs ih => simpa using ih

theorem set_append_two_left {α : Type} (l : List α) (a b c : α) :
    (l ++ [a, b]).set l.length c = l ++ [c, b] := by
  induction l with
  | nil => rfl
  | cons x xs ih => simp [ih]

theorem set_append_two_right {α : Type} (l : List α) (a b c : α) :
    (l ++ [a, b]).set (l.length + 1) c = l ++ [a, c] := by
  induction l with
  | nil => rfl
  | cons x xs ih => simp [ih]

/-- On a tensor with at least two dimensions (and fewer than `2^64` of
them), `getImageSize` returns `(width, height)` = (last, second-to-last). -/
theorem getImageSize_append (l : List Nat) (H W : Nat)
    (hlen : l.length + 2 ≤ 2 ^ 64) :
    getImageSize ⟨l ++ [H, W]⟩ = some ((W : Int), (H : Int)) := by
  have hl : (l ++ [H, W]).length = l.length + 2 := by simp
  have hu1 : usub64 (l.length + 2) 1 = l.length + 1 := by
    rw [usub64_eq_sub _ _ (by omega) (by omega) hlen]
    omega
  have hu2 : usub64 (l.length + 2) 2 = l.length := by
    rw [usub64_eq_sub _ _ (by omega) (by omega) hlen]
    omega
  simp only [getImageSize, hl, hu1, hu2, get?_append_two_right,
    get?_append_two_left, Option.some_bind, Option.map_some']
  rfl

theorem resolveCrop_top (w h W H : Int) :
    (resolveCrop w h (W, H)).top =
      Int.tdiv (H - (resolveCrop w h (W, H)).height) 2 := rfl

theorem resolveCrop_left (w h W H : Int) :
    (resolveCrop w h (W, H)).left =
      Int.tdiv (W - (resolveCrop w h (W, H)).width) 2 := rfl

theorem narrow_eq_some (t : Tensor) (dim start len : Int)
    (h1 : 0 ≤ dim) (h2 : dim.toNat < t.shape.length) (h3 : 0 ≤ len)
    (h4 : 0 ≤ start)
    (h5 : start + len ≤ ((t.shape.getD dim.toNat 0 : Nat) : Int)) :
    Tensor.narrow t dim start len =
      some ⟨t.shape.set dim.toNat len.toNat⟩ := by
  have hs : narrowStart start (t.shape.getD dim.toNat 0) = start := by
    unfold narrowStart
    rw [if_neg (not_lt.mpr h4)]
  unfold Tensor.narrow
  rw [if_pos ⟨h1, h2⟩, hs, if_pos ⟨h3, h4, h5⟩]

theorem narrow_shape {t : Tensor} {dim start len : Int} {r : Tensor}
    (hr : Tensor.narrow t dim start len = some r) :
    r.shape = t.shape.set dim.toNat len.toNat := by
  unfold Tensor.narrow at hr
  split_ifs at hr
  cases hr; rfl

/-- Unfolding `centerCropFunc` on a single tensor argument: the arity check
passes, `parseTensor` succeeds, and the invocation is the `getImageSize` /
`resolveCrop` / double-`narrow` pipeline. -/
theorem centerCropFunc_tensor_eq (w h : Int) (t : Tensor) :
    centerCropFunc w h [JSValue.tensor t] =
      match getImageSize t with
      | none => Except.error CropError.native
      | some size =>
        match (Tensor.narrow t (((Tensor.ndimension t : Nat) : Int) - 2)
              (resolveCrop w h size).top (resolveCrop w h size).height).bind
            (fun t2 => Tensor.narrow t2 (((Tensor.ndimension t : Nat) : Int) - 1)
              (resolveCrop w h size).left (resolveCrop w h size).width) with
        | none => Except.error CropError.native
        | some r => Except.ok r := rfl

theorem centerCropFunc_tensor_some (w h : Int) (t : Tensor) (size : Int × Int)
    (hgis : getImageSize t = some size) :
    centerCropFunc w h [JSValue.tensor t] =
      match (Tensor.narrow t (((Tensor.ndimension t : Nat) : Int) - 2)
            (resolveCrop w h size).top (resolveCrop w h size).height).bind
          (fun t2 => Tensor.narrow t2 (((Tensor.ndimension t : Nat) : Int) - 1)
            (resolveCrop w h size).left (resolveCrop w h size).width) with
      | none => Except.error CropError.native
      | some r => Except.ok r := by
  rw [centerCropFunc_tensor_eq, hgis]

/-- Master evaluation lemma: when the resolved crop height/width are
nonnegative and fit inside the image, the invocation succeeds and the
result shape is the input shape with the last two dimensions replaced by
the resolved crop height and width. -/
theorem centerCropFunc_shape (w h : Int) (l : List Nat) (H W : Nat)
    (hlen : l.length + 2 ≤ 2 ^ 64)
    (hh0 : 0 ≤ (resolveCrop w h ((W : Int), (H : Int))).height)
    (hhH : (resolveCrop w h ((W : Int), (H : Int))).height ≤ (H : Int))
    (hw0 : 0 ≤ (resolveCrop w h ((W : Int), (H : Int))).width)
    (hwW : (resolveCrop w h ((W : Int), (H : Int))).width ≤ (W : Int)) :
    centerCropFunc w h [JSValue.tensor ⟨l ++ [H, W]⟩] =
      Except.ok ⟨l ++ [(resolveCrop w h ((W : Int), (H : Int))).height.toNat,
                       (resolveCrop w h ((W : Int), (H : Int))).width.toNat]⟩ := by
  have htop0 : 0 ≤ (resolveCrop w h ((W : Int), (H : Int))).top := by
    rw [resolveCrop_top]
    exact Int.tdiv_nonneg (by omega) (by norm_num)
  have htop : (resolveCrop w h ((W : Int), (H : Int))).top
      + (resolveCrop w h ((W : Int), (H : Int))).height ≤ (H : Int) := by
    rw [resolveCrop_top, Int.tdiv_eq_ediv (by omega) (by norm_num)]
    have := Int.ediv_le_self 2
      (show (0 : Int) ≤ (H : Int) - (resolveCrop w h ((W : Int), (H : Int))).height
        from by omega)
    omega
  have hleft0 : 0 ≤ (resolveCrop w h ((W : Int), (H : Int))).left := by
    rw [resolveCrop_left]
    exact Int.tdiv_nonneg (by omega) (by norm_num)
  have hleft : (resolveCrop w h ((W : Int), (H : Int))).left
      + (resolveCrop w h ((W : Int), (H : Int))).width ≤ (W : Int) := by
    rw [resolveCrop_left, Int.tdiv_eq_ediv (by omega) (by norm_num)]
    have := Int.ediv_le_self 2
      (show (0 : Int) ≤ (W : Int) - (resolveCrop w h ((W : Int), (H : Int))).width
        from by omega)
    omega
  set c := resolveCrop w h ((W : Int), (H : Int)) with hc
  have hn1 : Tensor.narrow ⟨l ++ [H, W]⟩ ((l.length : Nat) : Int) c.top c.height
      = some ⟨l ++ [c.height.toNat, W]⟩ := by
    have h5 : c.top + c.height ≤
        ((((⟨l ++ [H, W]⟩ : Tensor).shape.getD ((l.length : Int)).toNat 0 : Nat)) : Int) := by
      simp only [Int.toNat_natCast]
      show c.top + c.height ≤ (((l ++ [H, W]).getD l.length 0 : Nat) : Int)
      rw [getD_append_two_left]
      exact htop
    rw [narrow_eq_some _ _ _ _ (Int.natCast_nonneg _) (by simp) hh0 htop0 h5]
    simp [set_append_two_left]
  have hn2 : Tensor.narrow ⟨l ++ [c.height.toNat, W]⟩ (((l.length + 1 : Nat)) : Int)
      c.left c.width = some ⟨l ++ [c.height.toNat, c.width.toNat]⟩ := by
    have h5 : c.left + c.width ≤
        ((((⟨l ++ [c.height.toNat, W]⟩ : Tensor).shape.getD
          (((l.length + 1 : Nat) : Int)).toNat 0 : Nat)) : Int) := by
      simp only [Int.toNat_natCast]
      show c.left + c.width ≤ (((l ++ [c.height.toNat, W]).getD (l.length + 1) 0 : Nat) : Int)
      rw [getD_append_two_right]
      exact hleft
    rw [narrow_eq_some _ _ _ _ (Int.natCast_nonneg _) (by simp) hw0 hleft0 h5]
    simp [set_append_two_right]
  have hd2 : ((Tensor.ndimension ⟨l ++ [H, W]⟩ : Nat) : Int) - 2
      = ((l.length : Nat) : Int) := by
    simp [Tensor.ndimension]
  have hd1 : ((Tensor.ndimension ⟨l ++ [H, W]⟩ : Nat) : Int) - 1
      = (((l.length + 1 : Nat)) : Int) := by
    simp [Tensor.ndimension]
    ring
  rw [centerCropFunc_tensor_some w h _ _ (getImageSize_append l H W hlen), hd2, hd1,
    ← hc, hn1, Option.some_bind, hn2]

/-- Width sentinel unset (`cropWidth == -1`): square crop of the shorter of
the last two dimensions, whatever `height` was. -/
theorem resolveCrop_unset (h W H : Int) :
    resolveCrop (-1) h (W, H) =
      ⟨min W H, min W H, Int.tdiv (H - min W H) 2, Int.tdiv (W - min W H) 2⟩ := rfl

/-- Width set, height sentinel unset: square crop of the given width. -/
theorem resolveCrop_width_only (w W H : Int) (hw : w ≠ -1) :
    resolveCrop w (-1) (W, H) =
      ⟨w, w, Int.tdiv (H - w) 2, Int.tdiv (W - w) 2⟩ := by
  simp [resolveCrop, hw]

/-- Width and height both set. -/
theorem resolveCrop_explicit (w h W H : Int) (hw : w ≠ -1) (hh : h ≠ -1) :
    resolveCrop w h (W, H) =
      ⟨h, w, Int.tdiv (H - h) 2, Int.tdiv (W - w) 2⟩ := by
  simp [resolveCrop, hw, hh]

/-- C1: for a tensor whose last two dimensions are `(imageHeight, imageWidth)`,
the crop invocation reads `(width, height) = (imageWidth, imageHeight)` via
`getImageSize` and computes `cropTop = (imageHeight - cropHeight) / 2` and
`cropLeft = (imageWidth - cropWidth) / 2` with C-style truncating integer
division (`Int.tdiv`); in particular `imageHeight = 9`, `cropHeight = 4`
yields `cropTop = 2`. -/
theorem centerCrop_offsets_c_division (l : List Nat) (H W : Nat) (w h : Int)
    (hlen : l.length + 2 ≤ 2 ^ 64) :
    getImageSize ⟨l ++ [H, W]⟩ = some ((W : Int), (H : Int)) ∧
    (resolveCrop w h ((W : Int), (H : Int))).top =
      Int.tdiv ((H : Int) - (resolveCrop w h ((W : Int), (H : Int))).height) 2 ∧
    (resolveCrop w h ((W : Int), (H : Int))).left =
      Int.tdiv ((W : Int) - (resolveCrop w h ((W : Int), (H : Int))).width) 2 ∧
    (resolveCrop 4 4 ((9 : Int), (9 : Int))).height = 4 ∧
    (resolveCrop 4 4 ((9 : Int), (9 : Int))).top = 2 :=
  ⟨getImageSize_append l H W hlen, resolveCrop_top w h _ _,
    resolveCrop_left w h _ _, by decide, by decide⟩

theorem centerCrop_offsets_c_division_check :
    getImageSize ⟨([] : List Nat) ++ [9, 9]⟩ = some ((9 : Int), (9 : Int)) ∧
    (resolveCrop 4 4 ((9 : Int), (9 : Int))).top =
      Int.tdiv ((9 : Int) - (resolveCrop 4 4 ((9 : Int), (9 : Int))).height) 2 ∧
    (resolveCrop 4 4 ((9 : Int), (9 : Int))).left =
      Int.tdiv ((9 : Int) - (resolveCrop 4 4 ((9 : Int), (9 : Int))).width) 2 ∧
    (resolveCrop 4 4 ((9 : Int), (9 : Int))).height = 4 ∧
    (resolveCrop 4 4 ((9 : Int), (9 : Int))).top = 2 :=
  centerCrop_offsets_c_division [] 9 9 4 4 (by norm_num)

/-- C2: with no explicit size (factory called with no arguments, so the
sentinel `-1` is captured for both width and height), the invocation on a
tensor of shape `l ++ [H, W]` returns a tensor of shape
`l ++ [min H W, min H W]`; any captured height value is ignored when width
is unset (the theorem holds for every `hgt`). -/
theorem centerCrop_default_square (hgt : Int) (l : List Nat) (H W : Nat)
    (hlen : l.length + 2 ≤ 2 ^ 64) :
    centerCropFactoryFunc [] = Except.ok ⟨-1, -1⟩ ∧
    centerCropFunc (-1) hgt [JSValue.tensor ⟨l ++ [H, W]⟩] =
      Except.ok ⟨l ++ [min H W, min H W]⟩ := by
  refine ⟨rfl, ?_⟩
  have e := centerCropFunc_shape (-1) hgt l H W hlen
    (by rw [resolveCrop_unset]
        exact le_min (Int.natCast_nonneg W) (Int.natCast_nonneg H))
    (by rw [resolveCrop_unset]; exact min_le_right _ _)
    (by rw [resolveCrop_unset]
        exact le_min (Int.natCast_nonneg W) (Int.natCast_nonneg H))
    (by rw [resolveCrop_unset]; exact min_le_left _ _)
  rw [e, resolveCrop_unset]
  simp [← Nat.cast_min, Nat.min_comm]

theorem centerCrop_default_square_check :
    centerCropFactoryFunc [] = Except.ok ⟨-1, -1⟩ ∧
    centerCropFunc (-1) 77 [JSValue.tensor ⟨[2] ++ [10, 8]⟩] =
      Except.ok ⟨[2] ++ [min 10 8, min 10 8]⟩ :=
  centerCrop_default_square 77 [2] 10 8 (by norm_num)

/-- C3 counterexample: with explicit width = height = 6 on a 4×4 tensor the
invocation does not return a tensor of shape `[6, 6]` (or any tensor): the
oversized crop makes the offsets negative and the narrow fails, so the
result is a native error. -/
theorem centerCrop_explicit_size_oversize_fails :
    centerCropFunc 6 6 [JSValue.tensor ⟨[4, 4]⟩] =
      Except.error CropError.native := by decide

/-- C3 (amended): for explicit nonnegative width and height that fit within
the image (`height ≤ H`, `width ≤ W`), the invocation returns a tensor of
shape `l ++ [height, width]`. -/
theorem centerCrop_explicit_size_shape (w h : Int) (l : List Nat) (H W : Nat)
    (hlen : l.length + 2 ≤ 2 ^ 64)
    (hh0 : 0 ≤ h) (hhH : h ≤ (H : Int)) (hw0 : 0 ≤ w) (hwW : w ≤ (W : Int)) :
    centerCropFunc w h [JSValue.tensor ⟨l ++ [H, W]⟩] =
      Except.ok ⟨l ++ [h.toNat, w.toNat]⟩ := by
  have hw1 : w ≠ -1 := by omega
  have hh1 : h ≠ -1 := by omega
  have e := centerCropFunc_shape w h l H W hlen
    (by rw [resolveCrop_explicit w h _ _ hw1 hh1]; exact hh0)
    (by rw [resolveCrop_explicit w h _ _ hw1 hh1]; exact hhH)
    (by rw [resolveCrop_explicit w h _ _ hw1 hh1]; exact hw0)
    (by rw [resolveCrop_explicit w h _ _ hw1 hh1]; exact hwW)
  rw [e, resolveCrop_explicit w h _ _ hw1 hh1]

theorem centerCrop_explicit_size_shape_check :
    centerCropFunc 4 2 [JSValue.tensor ⟨[3] ++ [10, 8]⟩] =
      Except.ok ⟨[3] ++ [(2 : Int).toNat, (4 : Int).toNat]⟩ :=
  centerCrop_explicit_size_shape 4 2 [3] 10 8 (by norm_num)
    (by norm_num) (by norm_num) (by norm_num) (by norm_num)

/-- C4 counterexample: with a single numeric width argument 6 the factory
captures `⟨6, -1⟩`, but invoking on a 4×4 tensor does not return a `[6, 6]`
tensor: the oversized crop fails with a native error. -/
theorem centerCrop_width_only_oversize_fails :
    centerCropFactoryFunc [JSValue.number (mkRat 6 1)] = Except.ok ⟨6, -1⟩ ∧
    CropSpec.invoke ⟨6, -1⟩ [JSValue.tensor ⟨[4, 4]⟩] =
      Except.error CropError.native := by decide

/-- C4 (amended): for a factory call with exactly one numeric argument whose
captured integer width is nonnegative and fits within both image dimensions,
the invocation returns a tensor of shape `l ++ [width, width]` (the unset
height defaults to the width). -/
theorem centerCrop_width_only_shape (q : ℚ) (l : List Nat) (H W : Nat)
    (spec : CropSpec)
    (hspec : centerCropFactoryFunc [JSValue.number q] = Except.ok spec)
    (hlen : l.length + 2 ≤ 2 ^ 64)
    (hw0 : 0 ≤ spec.width) (hwH : spec.width ≤ (H : Int))
    (hwW : spec.width ≤ (W : Int)) :
    CropSpec.invoke spec [JSValue.tensor ⟨l ++ [H, W]⟩] =
      Except.ok ⟨l ++ [spec.width.toNat, spec.width.toNat]⟩ := by
  have hfac : centerCropFactoryFunc [JSValue.number q] =
      Except.ok ⟨truncToInt q, -1⟩ := rfl
  rw [hfac] at hspec
  cases Except.ok.inj hspec
  have hw1 : truncToInt q ≠ -1 := by
    intro hcontra
    rw [show (⟨truncToInt q, -1⟩ : CropSpec).width = truncToInt q from rfl,
      hcontra] at hw0
    omega
  have e := centerCropFunc_shape (truncToInt q) (-1) l H W hlen
    (by rw [resolveCrop_width_only _ _ _ hw1]; exact hw0)
    (by rw [resolveCrop_width_only _ _ _ hw1]; exact hwH)
    (by rw [resolveCrop_width_only _ _ _ hw1]; exact hw0)
    (by rw [resolveCrop_width_only _ _ _ hw1]; exact hwW)
  show centerCropFunc (truncToInt q) (-1) _ = _
  rw [e, resolveCrop_width_only _ _ _ hw1]

theorem centerCrop_width_only_shape_check :
    CropSpec.invoke ⟨4, -1⟩ [JSValue.tensor ⟨[3] ++ [10, 8]⟩] =
      Except.ok ⟨[3] ++ [(4 : Int).toNat, (4 : Int).toNat]⟩ :=
  centerCrop_width_only_shape (mkRat 4 1) [3] 10 8 ⟨4, -1⟩ (by decide)
    (by norm_num) (by norm_num) (by norm_num) (by norm_num)

/-- C5: a successful invocation on a tensor of shape `l ++ [H, W]` narrows
only the last two dimensions — the result shape is `l ++ [a, b]` for some
`a`, `b` (every leading dimension preserved); the input tensor itself is a
value in the embedding (narrow returns a fresh view), so its shape is
unchanged. -/
theorem centerCrop_preserves_leading_dims (w h : Int) (l : List Nat)
    (H W : Nat) (r : Tensor)
    (hok : centerCropFunc w h [JSValue.tensor ⟨l ++ [H, W]⟩] = Except.ok r) :
    (∃ a b, r.shape = l ++ [a, b]) ∧
    (⟨l ++ [H, W]⟩ : Tensor).shape = l ++ [H, W] := by
  refine ⟨?_, rfl⟩
  rw [centerCropFunc_tensor_eq] at hok
  split at hok
  next => cases hok
  next size hsize =>
    split at hok
    next => cases hok
    next r2 hr2 =>
      cases hok
      rcases Option.bind_eq_some.mp hr2 with ⟨t1, h1, h2⟩
      have hs1 := narrow_shape h1
      have hs2 := narrow_shape h2
      refine ⟨(resolveCrop w h size).height.toNat,
        (resolveCrop w h size).width.toNat, ?_⟩
      have hd2 : (((Tensor.ndimension ⟨l ++ [H, W]⟩ : Nat) : Int) - 2).toNat
          = l.length := by
        simp [Tensor.ndimension]
      have hd1 : (((Tensor.ndimension ⟨l ++ [H, W]⟩ : Nat) : Int) - 1).toNat
          = l.length + 1 := by
        simp [Tensor.ndimension]
        omega
      have hshape : (⟨l ++ [H, W]⟩ : Tensor).shape = l ++ [H, W] := rfl
      rw [hd2, hshape, set_append_two_left] at hs1
      rw [hd1, hs1, set_append_two_right] at hs2
      exact hs2

theorem centerCrop_preserves_leading_dims_check :
    (∃ a b, (⟨[3, 4, 4]⟩ : Tensor).shape = [3] ++ [a, b]) ∧
    (⟨[3] ++ [10, 8]⟩ : Tensor).shape = [3] ++ [10, 8] :=
  centerCrop_preserves_leading_dims 4 4 [3] 10 8 ⟨[3, 4, 4]⟩ (by decide)

/-- C6: invoking the produced callable with an argument count other than one
throws the catchable arity error; a single non-tensor argument throws the
catchable type error from `parseTensor`; a single tensor argument never
produces a thrown `jsi::JSError` (any failure past parsing is a native
error, not an arity or type error). -/
theorem centerCrop_argument_errors (w h : Int) :
    (∀ args : List JSValue, args.length ≠ 1 →
      centerCropFunc w h args =
        Except.error (CropError.jsError "Tensor required as argument")) ∧
    (∀ v : JSValue, (∀ t, v ≠ JSValue.tensor t) →
      centerCropFunc w h [v] =
        Except.error (CropError.jsError "Object is not a Tensor")) ∧
    (∀ (t : Tensor) (msg : String),
      centerCropFunc w h [JSValue.tensor t] ≠
        Except.error (CropError.jsError msg)) := by
  refine ⟨fun args hargs => ?_, fun v hv => ?_, fun t msg => ?_⟩
  · unfold centerCropFunc
    rw [if_pos hargs]
  · cases v with
    | tensor t => exact absurd rfl (hv t)
    | number q => rfl
    | undefined => rfl
    | other => rfl
  · rw [centerCropFunc_tensor_eq]
    split
    · simp
    · split
      · simp
      · simp

theorem centerCrop_argument_errors_check :
    centerCropFunc 3 3 [] =
      Except.error (CropError.jsError "Tensor required as argument") ∧
    centerCropFunc 3 3 [JSValue.other] =
      Except.error (CropError.jsError "Object is not a Tensor") ∧
    centerCropFunc 3 3 [JSValue.tensor ⟨[4, 4]⟩] ≠
      Except.error (CropError.jsError "Tensor required as argument") :=
  ⟨(centerCrop_argument_errors 3 3).1 [] (by decide),
   (centerCrop_argument_errors 3 3).2.1 JSValue.other (fun t => by simp),
   (centerCrop_argument_errors 3 3).2.2 ⟨[4, 4]⟩ "Tensor required as argument"⟩

/-- C7: on a 4×4 image with requested crop width 6 (height unset, so it
defaults to 6), both computed offsets are `(4 - 6) / 2 = -1`, negative; the
binding performs no bounds validation and no padding — the invocation is
exactly the two `narrow` calls with those negative offsets (which the native
primitive then rejects). -/
theorem centerCrop_oversize_negative_offset :
    (resolveCrop 6 (-1) ((4 : Int), (4 : Int))).top = -1 ∧
    (resolveCrop 6 (-1) ((4 : Int), (4 : Int))).left = -1 ∧
    centerCropFunc 6 (-1) [JSValue.tensor ⟨[4, 4]⟩] =
      (match (Tensor.narrow ⟨[4, 4]⟩ 0 (-1) 6).bind
          (fun t2 => Tensor.narrow t2 1 (-1) 6) with
       | none => Except.error CropError.native
       | some r => Except.ok r) ∧
    centerCropFunc 6 (-1) [JSValue.tensor ⟨[4, 4]⟩] =
      Except.error CropError.native := by decide

/-- C8: the (width, height) specification is captured by value at factory
time; the embedding of the produced callable is a pure function of the
captured specification and the tensor argument, so two invocations on
tensors with equal shapes resolve the same geometry and return identical
results (in particular, results of the same shape). -/
theorem centerCrop_captured_spec_deterministic (args : List JSValue)
    (spec : CropSpec)
    (_hspec : centerCropFactoryFunc args = Except.ok spec) (t1 t2 : Tensor)
    (ht : t1.shape = t2.shape) :
    (getImageSize t1).map (resolveCrop spec.width spec.height) =
      (getImageSize t2).map (resolveCrop spec.width spec.height) ∧
    CropSpec.invoke spec [JSValue.tensor t1] =
      CropSpec.invoke spec [JSValue.tensor t2] := by
  have h12 : t1 = t2 := by
    cases t1
    cases t2
    cases ht
    rfl
  subst h12
  exact ⟨rfl, rfl⟩

theorem centerCrop_captured_spec_deterministic_check :
    (getImageSize ⟨[4, 4]⟩).map
        (resolveCrop (⟨3, -1⟩ : CropSpec).width (⟨3, -1⟩ : CropSpec).height) =
      (getImageSize ⟨[4, 4]⟩).map
        (resolveCrop (⟨3, -1⟩ : CropSpec).width (⟨3, -1⟩ : CropSpec).height) ∧
    CropSpec.invoke ⟨3, -1⟩ [JSValue.tensor ⟨[4, 4]⟩] =
      CropSpec.invoke ⟨3, -1⟩ [JSValue.tensor ⟨[4, 4]⟩] :=
  centerCrop_captured_spec_deterministic [JSValue.number (mkRat 3 1)] ⟨3, -1⟩
    (by decide) ⟨[4, 4]⟩ ⟨[4, 4]⟩ rfl

/-- C9: `-1` is the sentinel for "unset": explicitly passing `-1` as width
is indistinguishable from passing no arguments, and passing `-1` as height
with a set width is indistinguishable from omitting height (the captured
specifications are equal, hence all later behaviour is equal); a numeric
argument is truncated toward zero to an integer before capture
(`3.5 ↦ 3`, `-3.5 ↦ -3`). -/
theorem centerCrop_sentinel_and_truncation (u : ℚ) :
    centerCropFactoryFunc [JSValue.number (mkRat (-1) 1)] =
      centerCropFactoryFunc [] ∧
    centerCropFactoryFunc [JSValue.number u, JSValue.number (mkRat (-1) 1)] =
      centerCropFactoryFunc [JSValue.number u] ∧
    centerCropFactoryFunc [JSValue.number u] =
      Except.ok ⟨truncToInt u, -1⟩ ∧
    truncToInt (mkRat 7 2) = 3 ∧ truncToInt (mkRat (-7) 2) = -3 :=
  ⟨rfl, rfl, rfl, by decide, by decide⟩

theorem centerCrop_sentinel_and_truncation_check :
    centerCropFactoryFunc [JSValue.number (mkRat (-1) 1)] =
      centerCropFactoryFunc [] ∧
    centerCropFactoryFunc
        [JSValue.number (mkRat 5 2), JSValue.number (mkRat (-1) 1)] =
      centerCropFactoryFunc [JSValue.number (mkRat 5 2)] ∧
    centerCropFactoryFunc [JSValue.number (mkRat 5 2)] =
      Except.ok ⟨truncToInt (mkRat 5 2), -1⟩ ∧
    truncToInt (mkRat 7 2) = 3 ∧ truncToInt (mkRat (-7) 2) = -3 :=
  centerCrop_sentinel_and_truncation (mkRat 5 2)

/-- C10: `getImageSize` reads `sizes[length - 1]` and `sizes[length - 2]`
with `size_t` arithmetic and no dimension-count check; for a 0-D or 1-D
tensor the index underflows to `2^64 - 1` and the lookup is out of bounds
(`none` in the embedding), so the invocation is only safe for tensors with
at least two dimensions and escalates to the native error below two. -/
theorem getImageSize_underflow_unsafe (t : Tensor)
    (hdim : t.shape.length < 2) (w h : Int) :
    getImageSize t = none ∧
    centerCropFunc w h [JSValue.tensor t] = Except.error CropError.native := by
  have hg : getImageSize t = none := by
    obtain ⟨shape⟩ := t
    match shape, hdim with
    | [], _ => rfl
    | [a], _ =>
      have h2 : List.get? [a] (usub64 1 2) = none := by
        rw [List.get?_eq_none]
        show 1 ≤ usub64 1 2
        unfold usub64
        norm_num
      show (List.get? [a] (usub64 1 1)).bind
          (fun w2 => (List.get? [a] (usub64 1 2)).map
            fun h2 => ((w2 : Int), (h2 : Int))) = none
      cases h1 : List.get? [a] (usub64 1 1) with
      | none => rfl
      | some x =>
        rw [Option.some_bind, h2]
        rfl
    | a :: b :: rest, hdim => exact absurd hdim (by simp)
  refine ⟨hg, ?_⟩
  rw [centerCropFunc_tensor_eq, hg]

theorem getImageSize_underflow_unsafe_check :
    getImageSize ⟨[5]⟩ = none ∧
    centerCropFunc 3 3 [JSValue.tensor ⟨[5]⟩] =
      Except.error CropError.native :=
  getImageSize_underflow_unsafe ⟨[5]⟩ (by decide) 3 3

end Torchlive
